import Mathlib

/-!
Verification of the `Node` facade of go-dqlite (`server.go`).

The Go code is shallowly embedded: every fallible external step (the C
bindings, network connect, request/response calls, response decoding) is
modelled by an explicit outcome parameter of type `Except Err α`, and each
operation returns, besides its result, the trace of externally visible events
it performed, in order.  Errors are modelled by their message strings, and
`errors.Wrap` from github.com/pkg/errors by prefixing `"msg: "`.
-/

namespace Dqlite

/-- Go error values, modelled by their message strings. -/
abbrev Err := String

/-- `errors.Wrap(err, msg)` from github.com/pkg/errors: the wrapped error's
message is the annotation followed by `": "` and the cause's message. -/
def wrap (msg : Err) (e : Err) : Err := msg ++ ": " ++ e

/-- Outcome of a fallible step: a value or a Go error. -/
abbrev Res (α : Type) := Except Err α

/-- `client.NodeInfo`: the identity of one cluster member. -/
structure NodeInfo where
  ID : Nat
  Address : String
  deriving Repr, DecidableEq

/-- Dial functions, distinguished by provenance: `protocol.UnixDial`,
`protocol.TCPDial`, or a caller-supplied custom function tagged by an index. -/
inductive DialFunc where
  | unixDial
  | tcpDial
  | custom (n : Nat)
  deriving Repr, DecidableEq

/-- Protocol version tags: `protocol.VersionLegacy` and `protocol.VersionOne`. -/
inductive Version where
  | legacy
  | one
  deriving Repr, DecidableEq

/-- `client.LogFunc` provenance: the default logger or a custom one. -/
inductive LogFunc where
  | default
  | custom (n : Nat)
  deriving Repr, DecidableEq

/-- `client.DefaultLogFunc()`. -/
def DefaultLogFunc : LogFunc := .default

/-- `backoff.BinaryExponential(initial)` from github.com/Rican7/retry: a
backoff algorithm tagged with its initial duration in milliseconds. -/
inductive Backoff where
  | binaryExponential (initialMillis : Nat)
  deriving Repr, DecidableEq

/-- `strategy.Backoff(b)` from github.com/Rican7/retry. -/
inductive Strategy where
  | backoff (b : Backoff)
  deriving Repr, DecidableEq

/-- `protocol.Config`: configuration of a `protocol.Connector`.  Durations
are in milliseconds. -/
structure Config where
  Dial : DialFunc
  AttemptTimeoutMillis : Nat
  RetryStrategies : List Strategy
  deriving Repr, DecidableEq

/-- `client.NodeStore` values, identified abstractly by an index. -/
abbrev Store := Nat

/-- `protocol.Connector` as returned by `protocol.NewConnector`. -/
structure Connector where
  id : Nat
  store : Store
  config : Config
  log : LogFunc
  deriving Repr, DecidableEq

/-- `protocol.NewConnector(id, store, config, log)`. -/
def NewConnector (id : Nat) (store : Store) (config : Config) (log : LogFunc) :
    Connector :=
  { id := id, store := store, config := config, log := log }

/-- `dqlite.Node`: the facade's own fields (`server.go` lines 17-24).  The
low-level `bindings.Node` handle and the accept channel are modelled by the
outcome parameters passed to each operation. -/
structure Node where
  log : LogFunc
  id : Nat
  address : String
  bindAddress : String
  deriving Repr, DecidableEq

/-- `serverOptions` (`server.go` lines 223-227): configuration options for a
dqlite server.  A `nil` Go `DialFunc` is `none`. -/
structure serverOptions where
  Log : LogFunc
  DialFunc : Option Dqlite.DialFunc
  BindAddress : String
  deriving Repr, DecidableEq

/-- `NodeOption`: a tweak applied to `serverOptions`. -/
abbrev NodeOption := serverOptions → serverOptions

/-- `WithNodeLogFunc(log)`. -/
def WithNodeLogFunc (log : LogFunc) : NodeOption :=
  fun options => { options with Log := log }

/-- `WithNodeDialFunc(dial)`: sets a (non-nil) custom dial function. -/
def WithNodeDialFunc (dial : DialFunc) : NodeOption :=
  fun options => { options with DialFunc := some dial }

/-- `WithNodeBindAddress(address)`. -/
def WithNodeBindAddress (address : String) : NodeOption :=
  fun options => { options with BindAddress := address }

/-- `defaultNodeOptions()`: sane defaults; no dial function, empty bind
address override. -/
def defaultNodeOptions : serverOptions :=
  { Log := DefaultLogFunc, DialFunc := none, BindAddress := "" }

/-- The option-application loop at the top of `NewNode` (`server.go`
lines 52-56). -/
def applyOptions (options : List NodeOption) : serverOptions :=
  options.foldl (fun o option => option o) defaultNodeOptions

/-- Outcomes of the three low-level bindings calls `NewNode` can make:
`bindings.NewNode`, `server.SetDialFunc`, `server.SetBindAddress`. -/
structure BindingsEnv where
  newNode : Res Unit
  setDialFunc : Res Unit
  setBindAddress : Res Unit

/-- The construction steps `NewNode` performs on the bindings node. -/
inductive NewNodeStep where
  | bindingsNew
  | setDialFunc
  | setBindAddress
  deriving Repr, DecidableEq

/-- The tail of `NewNode` after the optional `SetDialFunc` step (`server.go`
lines 67-83): compute the bind address (the supplied override when non-empty,
otherwise `"@dqlite-<id>"`), call `SetBindAddress`, and build the `Node`. -/
def newNodeBind (o : serverOptions) (info : NodeInfo) (env : BindingsEnv)
    (steps : List NewNodeStep) : Res Node × List NewNodeStep :=
  let bindAddress := if o.BindAddress != "" then o.BindAddress
                     else "@dqlite-" ++ toString info.ID
  match env.setBindAddress with
  | .error e => (.error e, steps ++ [.setBindAddress])
  | .ok _ =>
      (.ok { log := o.Log, id := info.ID, address := info.Address,
             bindAddress := bindAddress },
       steps ++ [.setBindAddress])

/-- `NewNode(info, dir, options...)` (`server.go` lines 51-84).  Applies the
options, calls `bindings.NewNode` (returning its error unwrapped on failure),
calls `SetDialFunc` only when a dial function option was supplied, then sets
the bind address and assembles the `Node`.  Returns the result together with
the ordered list of bindings steps performed. -/
def NewNode (info : NodeInfo) (options : List NodeOption) (env : BindingsEnv) :
    Res Node × List NewNodeStep :=
  let o := applyOptions options
  match env.newNode with
  | .error e => (.error e, [.bindingsNew])
  | .ok _ =>
      match o.DialFunc with
      | some _ =>
          match env.setDialFunc with
          | .error e => (.error e, [.bindingsNew, .setDialFunc])
          | .ok _ => newNodeBind o info env [.bindingsNew, .setDialFunc]
      | none => newNodeBind o info env [.bindingsNew]

/-- The wire requests sent by the facade's operations. -/
inductive Request where
  | cluster
  | leader
  | join (id : Nat) (address : String)
  | promote (id : Nat)
  | remove (id : Nat)
  deriving Repr, DecidableEq

/-- Externally visible events of one operation, in program order:
a local `protocol.Connect` attempt (with its dial function, target address
and protocol version), a `connector.Connect` attempt (with the connector's
configuration), a `c.Call` carrying one request, and a `c.Close`. -/
inductive Event where
  | connectLocal (dial : DialFunc) (addr : String) (version : Version)
  | connectStore (c : Connector)
  | call (r : Request)
  | close
  deriving Repr, DecidableEq

/-- Whether an event is a connection attempt. -/
def Event.isConnect : Event → Bool
  | .connectLocal _ _ _ => true
  | .connectStore _ => true
  | _ => false

/-- `Node.Cluster(ctx)` (`server.go` lines 92-116): connect to this node's
own bind address over `protocol.UnixDial` with the *legacy* protocol version,
send one Cluster request, decode the node list.  Each failure is wrapped with
its phase description; the connection, once open, is closed on every exit
path (the Go `defer c.Close()`). -/
def Node.Cluster (s : Node) (conn : Res Unit) (callRes : Res Unit)
    (decodeRes : Res (List NodeInfo)) : Res (List NodeInfo) × List Event :=
  match conn with
  | .error e => (.error (wrap "failed to connect to dqlite task" e),
      [.connectLocal .unixDial s.bindAddress .legacy])
  | .ok _ =>
      match callRes with
      | .error e => (.error (wrap "failed to send Cluster request" e),
          [.connectLocal .unixDial s.bindAddress .legacy, .call .cluster, .close])
      | .ok _ =>
          match decodeRes with
          | .error e => (.error (wrap "failed to parse Node response" e),
              [.connectLocal .unixDial s.bindAddress .legacy, .call .cluster, .close])
          | .ok servers => (.ok servers,
              [.connectLocal .unixDial s.bindAddress .legacy, .call .cluster, .close])

/-- `Node.Leader(ctx)` (`server.go` lines 119-145): connect to this node's
own bind address over `protocol.UnixDial` with protocol version *One*, send
one Leader request, decode one `(id, address)` pair via `protocol.DecodeNode`
and, on decode success, unconditionally return the non-nil pointer
`&client.NodeInfo{ID: id, Address: address}` (modelled as `some`).  Each
failure is wrapped with its phase description. -/
def Node.Leader (s : Node) (conn : Res Unit) (callRes : Res Unit)
    (decodeRes : Res (Nat × String)) : Res (Option NodeInfo) × List Event :=
  match conn with
  | .error e => (.error (wrap "failed to connect to dqlite task" e),
      [.connectLocal .unixDial s.bindAddress .one])
  | .ok _ =>
      match callRes with
      | .error e => (.error (wrap "failed to send Leader request" e),
          [.connectLocal .unixDial s.bindAddress .one, .call .leader, .close])
      | .ok _ =>
          match decodeRes with
          | .error e => (.error (wrap "failed to parse Node response" e),
              [.connectLocal .unixDial s.bindAddress .one, .call .leader, .close])
          | .ok (id, address) => (.ok (some { ID := id, Address := address }),
              [.connectLocal .unixDial s.bindAddress .one, .call .leader, .close])

/-- Modelled from the spec: the decoded shape, under `protocol.DecodeNode`
(package `internal/protocol`, not under `src/`), of a Leader response that
encodes "no leader is currently known" — the decode succeeds and yields the
zero node id and the empty address ("a nil result and no error"). -/
def noLeaderDecode : Res (Nat × String) := .ok (0, "")

/-- The `protocol.Config` literal built inside `Node.Join` (`server.go`
lines 154-162): the supplied dial function or `protocol.TCPDial` when nil,
a one-second attempt timeout, and binary exponential backoff starting at one
millisecond. -/
def joinConfig (dial : Option DialFunc) : Config :=
  let d := match dial with
           | none => DialFunc.tcpDial
           | some d => d
  { Dial := d, AttemptTimeoutMillis := 1000,
    RetryStrategies := [.backoff (.binaryExponential 1)] }

/-- The `protocol.Config` literal built inside `Leave` (`server.go`
lines 192-200); the source repeats the construction, so it is transcribed
separately from `joinConfig`. -/
def leaveConfig (dial : Option DialFunc) : Config :=
  let d := match dial with
           | none => DialFunc.tcpDial
           | some d => d
  { Dial := d, AttemptTimeoutMillis := 1000,
    RetryStrategies := [.backoff (.binaryExponential 1)] }

/-- `Node.Join(ctx, store, dial)` (`server.go` lines 153-188): build a
connector over the store, connect to some cluster member, then send
Join(id, address) and await its acknowledgement, then send Promote(id) and
await its acknowledgement, over the same connection.  Errors are returned
unwrapped; the connection, once open, is closed on every exit path. -/
def Node.Join (s : Node) (store : Store) (dial : Option DialFunc)
    (conn : Res Unit) (joinCall : Res Unit) (promoteCall : Res Unit) :
    Res Unit × List Event :=
  let connector := NewConnector 0 store (joinConfig dial) s.log
  match conn with
  | .error e => (.error e, [.connectStore connector])
  | .ok _ =>
      match joinCall with
      | .error e => (.error e,
          [.connectStore connector, .call (.join s.id s.address), .close])
      | .ok _ =>
          match promoteCall with
          | .error e => (.error e,
              [.connectStore connector, .call (.join s.id s.address),
               .call (.promote s.id), .close])
          | .ok _ => (.ok (),
              [.connectStore connector, .call (.join s.id s.address),
               .call (.promote s.id), .close])

/-- `Leave(ctx, id, store, dial)` (`server.go` lines 191-220): identical
connector construction to `Join` but with the default log function; send a
single Remove(id) request.  Errors are returned unwrapped; the connection,
once open, is closed on every exit path. -/
def Leave (id : Nat) (store : Store) (dial : Option DialFunc)
    (conn : Res Unit) (removeCall : Res Unit) : Res Unit × List Event :=
  let connector := NewConnector 0 store (leaveConfig dial) (DefaultLogFunc)
  match conn with
  | .error e => (.error e, [.connectStore connector])
  | .ok _ =>
      match removeCall with
      | .error e => (.error e,
          [.connectStore connector, .call (.remove id), .close])
      | .ok _ => (.ok (),
          [.connectStore connector, .call (.remove id), .close])

/-- The steps `Node.Close` performs on the bindings node: `server.Stop()`
and `server.Close()`. -/
inductive CloseStep where
  | serverStop
  | serverClose
  deriving Repr, DecidableEq

/-- `Node.Close()` (`server.go` lines 230-239): send a stop signal to the
dqlite event loop; if stopping fails, return the stop error wrapped as
`"server failed to stop"` immediately — `server.Close()` is reached only
when the stop succeeded. -/
def Node.Close (s : Node) (stopRes : Res Unit) : Res Unit × List CloseStep :=
  match stopRes with
  | .error e => (.error (wrap "server failed to stop" e), [.serverStop])
  | .ok _ => (.ok (), [.serverStop, .serverClose])

/-- `Node.Cluster` assigns to no field of its receiver (`server.go`
lines 92-116 contain no write to `s`): its effect on the receiver state is
the identity. -/
def Node.clusterEffect (s : Node) : Node := s

/-- `Node.Leader` assigns to no field of its receiver (`server.go`
lines 119-145): its effect on the receiver state is the identity. -/
def Node.leaderEffect (s : Node) : Node := s

/-- `Node.Start` assigns to no field of its receiver (`server.go`
lines 148-150): its effect on the receiver state is the identity. -/
def Node.startEffect (s : Node) : Node := s

/-- `Node.Join` assigns to no field of its receiver (`server.go`
lines 153-188): its effect on the receiver state is the identity. -/
def Node.joinEffect (s : Node) : Node := s

/-- `Node.Close` assigns to no field of its receiver (`server.go`
lines 230-239): its effect on the receiver state is the identity. -/
def Node.closeEffect (s : Node) : Node := s

/-- `Node.BindAddress` assigns to no field of its receiver (`server.go`
lines 87-89): its effect on the receiver state is the identity. -/
def Node.bindAddressEffect (s : Node) : Node := s

/-- A sample node value used by concrete counterexamples and witnesses. -/
def nodeEx : Node :=
  { log := .default, id := 7, address := "10.0.0.7:9001",
    bindAddress := "@dqlite-7" }

/-- A sample node identity used by concrete witnesses. -/
def infoEx : NodeInfo := { ID := 7, Address := "10.0.0.7:9001" }

/-- A bindings environment in which every call succeeds. -/
def envOk : BindingsEnv :=
  { newNode := .ok (), setDialFunc := .ok (), setBindAddress := .ok () }

/-- A bindings environment in which `bindings.NewNode` itself fails. -/
def envNewFail : BindingsEnv :=
  { newNode := .error "create boom", setDialFunc := .ok (), setBindAddress := .ok () }

/-- C1 counterexample: when the stop step fails, `Node.Close` returns the
wrapped stop error but the resource-release step (`server.Close()`) does NOT
run — contradicting the claim that release happens unconditionally. -/
theorem C1_counterexample :
    CloseStep.serverClose ∉ (Node.Close nodeEx (.error "stop boom")).2 ∧
    (Node.Close nodeEx (.error "stop boom")).1 =
      .error "server failed to stop: stop boom" :=
  ⟨by decide, rfl⟩

/-- C1 (amended): `Node.Close` first performs the stop step; when stopping
fails it returns the stop error wrapped as "server failed to stop" and does
NOT release the engine's resources (`server.Close()` is skipped); only when
the stop succeeds does it release the resources and return nil. -/
theorem C1_close (s : Node) (e : Err) :
    Node.Close s (.error e) =
      (.error (wrap "server failed to stop" e), [CloseStep.serverStop]) ∧
    Node.Close s (.ok ()) =
      (.ok (), [CloseStep.serverStop, CloseStep.serverClose]) :=
  ⟨rfl, rfl⟩

/-- C2 counterexample: on a response that (per the spec) encodes "no leader
is currently known", `Node.Leader` returns a NON-nil `NodeInfo` pointer
(carrying the decoded zero id and empty address) and not the claimed
nil-with-no-error outcome. -/
theorem C2_counterexample :
    (Node.Leader nodeEx (.ok ()) (.ok ()) noLeaderDecode).1 =
      .ok (some { ID := 0, Address := "" }) ∧
    (Node.Leader nodeEx (.ok ()) (.ok ()) noLeaderDecode).1 ≠ .ok none :=
  ⟨rfl, by simp [Node.Leader, noLeaderDecode]⟩

/-- C2 (amended): `Node.Leader` never returns a nil result with no error,
under any connect/call/decode outcome; every successful decode — including
the "no leader" encoding — yields a non-nil `NodeInfo` pointer built from
the decoded id and address, and a malformed (failing) decode yields the
wrapped parse error and no result, so the two outcomes that do exist are
never conflated. -/
theorem C2_leader (s : Node) (conn callRes : Res Unit)
    (decodeRes : Res (Nat × String)) :
    (Node.Leader s conn callRes decodeRes).1 ≠ .ok none ∧
    (∀ id address, decodeRes = .ok (id, address) → conn = .ok () →
      callRes = .ok () →
      (Node.Leader s conn callRes decodeRes).1 =
        .ok (some { ID := id, Address := address })) ∧
    (∀ e, conn = .ok () → callRes = .ok () → decodeRes = .error e →
      (Node.Leader s conn callRes decodeRes).1 =
        .error (wrap "failed to parse Node response" e)) := by
  rcases conn with e | u <;> rcases callRes with e2 | u2 <;>
    rcases decodeRes with e3 | ⟨id, address⟩ <;>
      simp [Node.Leader]

/-- C2 witness: the amended theorem applied at a concrete successful run. -/
theorem C2_witness :
    (Node.Leader nodeEx (.ok ()) (.ok ()) (.ok (3, "n3"))).1 =
      .ok (some { ID := 3, Address := "n3" }) :=
  (C2_leader nodeEx (.ok ()) (.ok ()) (.ok (3, "n3"))).2.1 3 "n3" rfl rfl rfl

/-- C3 counterexample: a run of `Join` failing at the Join request and a run
failing at the Promote request, with the same underlying error, return the
very same error value even though they failed at different steps (their
event traces differ) — so the error value alone does not indicate which
step failed. -/
theorem C3_counterexample :
    (Node.Join nodeEx 0 none (.ok ()) (.error "boom") (.ok ())).1 =
      .error "boom" ∧
    (Node.Join nodeEx 0 none (.ok ()) (.ok ()) (.error "boom")).1 =
      .error "boom" ∧
    (Node.Join nodeEx 0 none (.ok ()) (.error "boom") (.ok ())).2 ≠
      (Node.Join nodeEx 0 none (.ok ()) (.ok ()) (.error "boom")).2 :=
  ⟨rfl, rfl, by decide⟩

/-- C3 (amended): a failure at either step of `Join` aborts the operation
and returns that step's underlying error unchanged (unwrapped and without
any step annotation); in particular two runs failing at different steps
with the same underlying error return equal error values, so the failing
step is not distinguishable from the error value alone. -/
theorem C3_join_errors (s : Node) (store : Store) (dial : Option DialFunc)
    (e : Err) (joinCall promoteCall : Res Unit) :
    (Node.Join s store dial (.error e) joinCall promoteCall).1 = .error e ∧
    (Node.Join s store dial (.ok ()) (.error e) promoteCall).1 = .error e ∧
    (Node.Join s store dial (.ok ()) (.ok ()) (.error e)).1 = .error e ∧
    (Node.Join s store dial (.ok ()) (.error e) promoteCall).1 =
      (Node.Join s store dial (.ok ()) (.ok ()) (.error e)).1 :=
  ⟨rfl, rfl, rfl, rfl⟩

/-- C4 counterexample: a connect failure inside `Join` (and inside `Leave`)
is propagated as the bare underlying error with no phase-identifying
description prepended — wrapping with the phase description would have
changed the error value. -/
theorem C4_counterexample :
    (Node.Join nodeEx 0 none (.error "boom") (.ok ()) (.ok ())).1 =
      .error "boom" ∧
    (Leave 9 0 none (.error "boom") (.ok ())).1 = .error "boom" ∧
    wrap "failed to connect to dqlite task" "boom" ≠ "boom" :=
  ⟨rfl, rfl, by decide⟩

/-- C4 (amended): `Cluster` and `Leader` wrap every connect / send / decode
failure with its phase-identifying description, while `Join` and `Leave`
propagate their connect and send failures unwrapped; in all four operations
no error is swallowed — a successful result is returned only when every
step succeeded. -/
theorem C4_wrapping (s : Node) (store : Store) (dial : Option DialFunc)
    (e : Err) (conn callRes joinCall promoteCall removeCall : Res Unit)
    (decN : Res (List NodeInfo)) (decL : Res (Nat × String)) (id : Nat) :
    (Node.Cluster s (.error e) callRes decN).1 =
      .error (wrap "failed to connect to dqlite task" e) ∧
    (Node.Cluster s (.ok ()) (.error e) decN).1 =
      .error (wrap "failed to send Cluster request" e) ∧
    (Node.Cluster s (.ok ()) (.ok ()) (.error e)).1 =
      .error (wrap "failed to parse Node response" e) ∧
    (Node.Leader s (.error e) callRes decL).1 =
      .error (wrap "failed to connect to dqlite task" e) ∧
    (Node.Leader s (.ok ()) (.error e) decL).1 =
      .error (wrap "failed to send Leader request" e) ∧
    (Node.Leader s (.ok ()) (.ok ()) (.error e)).1 =
      .error (wrap "failed to parse Node response" e) ∧
    (Node.Join s store dial (.error e) joinCall promoteCall).1 = .error e ∧
    (Node.Join s store dial (.ok ()) (.error e) promoteCall).1 = .error e ∧
    (Node.Join s store dial (.ok ()) (.ok ()) (.error e)).1 = .error e ∧
    (Leave id store dial (.error e) removeCall).1 = .error e ∧
    (Leave id store dial (.ok ()) (.error e)).1 = .error e ∧
    (∀ v, (Node.Cluster s conn callRes decN).1 = .ok v →
      conn = .ok () ∧ callRes = .ok () ∧ decN = .ok v) ∧
    (∀ r, (Node.Join s store dial conn joinCall promoteCall).1 = .ok r →
      conn = .ok () ∧ joinCall = .ok () ∧ promoteCall = .ok ()) := by
  refine ⟨rfl, rfl, rfl, rfl, rfl, rfl, rfl, rfl, rfl, rfl, rfl, ?_, ?_⟩ <;>
    rcases conn with e1 | u1 <;> rcases callRes with e2 | u2 <;>
      rcases joinCall with e3 | u3 <;> rcases promoteCall with e4 | u4 <;>
        rcases decN with e5 | v5 <;>
          simp [Node.Cluster, Node.Join]

/-- C4 witness: the no-swallow conjunct applied at a concrete fully
successful run of `Cluster`. -/
theorem C4_witness :
    (Except.ok () : Res Unit) = .ok () ∧ (Except.ok () : Res Unit) = .ok () ∧
      (Except.ok [] : Res (List NodeInfo)) = .ok [] :=
  (C4_wrapping nodeEx 0 none "boom" (.ok ()) (.ok ()) (.ok ()) (.ok ())
      (.ok ()) (.ok []) (.ok (0, "")) 9).2.2.2.2.2.2.2.2.2.2.2.1 [] rfl

/-- C5: in every run of `Join` exactly one connection is obtained from the
Connector; when the connect step fails no request at all is issued; when
the Join request fails the Promote request is never issued (an error at
either step aborts the operation); and whenever the Promote request appears
in the trace, both earlier steps succeeded and the trace is exactly
connect, Join request, Promote request, close — so the Promote request is
sent only after the Join request's acknowledgement, over the single
connection. -/
theorem C5_join_sequencing (s : Node) (store : Store) (dial : Option DialFunc)
    (conn joinCall promoteCall : Res Unit) (e : Err) :
    ((Node.Join s store dial conn joinCall promoteCall).2.filter
      Event.isConnect).length = 1 ∧
    (conn = .error e →
      (Node.Join s store dial conn joinCall promoteCall).2 =
        [.connectStore (NewConnector 0 store (joinConfig dial) s.log)]) ∧
    (joinCall = .error e →
      Event.call (.promote s.id) ∉
        (Node.Join s store dial conn joinCall promoteCall).2) ∧
    (Event.call (.promote s.id) ∈
        (Node.Join s store dial conn joinCall promoteCall).2 →
      conn = .ok () ∧ joinCall = .ok () ∧
      (Node.Join s store dial conn joinCall promoteCall).2 =
        [.connectStore (NewConnector 0 store (joinConfig dial) s.log),
         .call (.join s.id s.address), .call (.promote s.id), .close]) := by
  rcases conn with e1 | u1 <;> rcases joinCall with e2 | u2 <;>
    rcases promoteCall with e3 | u3 <;>
      simp [Node.Join, Event.isConnect, List.filter]

/-- C5 witness: the sequencing theorem applied at a concrete run whose
connect step fails: the trace is the lone connect attempt. -/
theorem C5_witness :
    (Node.Join nodeEx 0 none (.error "down") (.ok ()) (.ok ())).2 =
      [.connectStore (NewConnector 0 0 (joinConfig none) nodeEx.log)] :=
  (C5_join_sequencing nodeEx 0 none (.error "down") (.ok ()) (.ok ())
    "down").2.1 rfl

/-- C6: `Cluster` connects to the node's own bind address over
`protocol.UnixDial` with the legacy protocol version, while `Leader`
performs the same local connect with protocol version One — the version
tag is selected per operation. -/
theorem C6_versions (s : Node) (conn callRes : Res Unit)
    (decN : Res (List NodeInfo)) (decL : Res (Nat × String)) :
    (Node.Cluster s conn callRes decN).2.head? =
      some (.connectLocal .unixDial s.bindAddress .legacy) ∧
    (Node.Leader s conn callRes decL).2.head? =
      some (.connectLocal .unixDial s.bindAddress .one) := by
  rcases conn with e1 | u1 <;> rcases callRes with e2 | u2 <;>
    rcases decN with e3 | v3 <;> rcases decL with e4 | v4 <;>
      exact ⟨rfl, rfl⟩

/-- C7: `Join` and `Leave` build their connector configuration identically:
the supplied dial function, or the default TCP dialer when none is given;
a one-second (1000 ms) per-attempt timeout; and binary exponential backoff
starting at one millisecond — and each operation's first event is the
connect attempt through a connector carrying exactly that configuration. -/
theorem C7_connector (dial : Option DialFunc) (d : DialFunc) (store : Store)
    (s : Node) (conn joinCall promoteCall removeCall : Res Unit) (id : Nat) :
    joinConfig dial = leaveConfig dial ∧
    joinConfig none = { Dial := .tcpDial, AttemptTimeoutMillis := 1000,
                        RetryStrategies := [.backoff (.binaryExponential 1)] } ∧
    joinConfig (some d) = { Dial := d, AttemptTimeoutMillis := 1000,
                            RetryStrategies := [.backoff (.binaryExponential 1)] } ∧
    (Node.Join s store dial conn joinCall promoteCall).2.head? =
      some (.connectStore (NewConnector 0 store (joinConfig dial) s.log)) ∧
    (Leave id store dial conn removeCall).2.head? =
      some (.connectStore (NewConnector 0 store (leaveConfig dial) DefaultLogFunc)) := by
  refine ⟨by cases dial <;> rfl, rfl, rfl, ?_, ?_⟩ <;>
    rcases conn with e1 | u1 <;> rcases joinCall with e2 | u2 <;>
      rcases promoteCall with e3 | u3 <;> rcases removeCall with e4 | u4 <;>
        simp [Node.Join, Leave, joinConfig, leaveConfig]

/-- C8: a node's `bindAddress` is fixed at construction — the supplied
override when one is given, otherwise `"@dqlite-<id>"` derived from the
node id — and no operation on the node modifies the receiver, so it never
changes afterwards. -/
theorem C8_bindAddress (info : NodeInfo) (env : BindingsEnv) (addr : String)
    (node node2 : Node) :
    ((NewNode info [] env).1 = .ok node →
      node.bindAddress = "@dqlite-" ++ toString info.ID) ∧
    (addr ≠ "" → (NewNode info [WithNodeBindAddress addr] env).1 = .ok node2 →
      node2.bindAddress = addr) ∧
    (∀ t : Node, t.clusterEffect.bindAddress = t.bindAddress ∧
      t.leaderEffect.bindAddress = t.bindAddress ∧
      t.startEffect.bindAddress = t.bindAddress ∧
      t.joinEffect.bindAddress = t.bindAddress ∧
      t.closeEffect.bindAddress = t.bindAddress ∧
      t.bindAddressEffect.bindAddress = t.bindAddress) := by
  obtain ⟨nn, sdf, sba⟩ := env
  refine ⟨?_, ?_, fun t => ⟨rfl, rfl, rfl, rfl, rfl, rfl⟩⟩
  · rcases nn with e1 | u1 <;> rcases sba with e2 | u2 <;> intro h <;>
      first
        | exact Except.noConfusion h
        | (injection h with h2; rw [← h2];
           simp [applyOptions, defaultNodeOptions])
  · intro hne
    rcases nn with e1 | u1 <;> rcases sba with e2 | u2 <;> intro h <;>
      first
        | exact Except.noConfusion h
        | (injection h with h2; rw [← h2];
           simp [applyOptions, defaultNodeOptions, WithNodeBindAddress,
                 bne_iff_ne, hne])

/-- C8 witness: the construction rule applied at a concrete node built with
a bind-address override. -/
theorem C8_witness :
    ({ log := .default, id := 7, address := "10.0.0.7:9001",
       bindAddress := "/tmp/sock" } : Node).bindAddress = "/tmp/sock" :=
  (C8_bindAddress infoEx envOk "/tmp/sock" nodeEx
      { log := .default, id := 7, address := "10.0.0.7:9001",
        bindAddress := "/tmp/sock" }).2.1 (by decide) rfl

/-- C9: in every run of `Cluster`, `Leader`, `Join` or `Leave` in which the
connection was successfully established, the trace ends with the close of
that connection — on success paths and on error (including cancellation)
paths alike. -/
theorem C9_conn_closed (s : Node) (store : Store) (dial : Option DialFunc)
    (callRes joinCall promoteCall removeCall : Res Unit)
    (decN : Res (List NodeInfo)) (decL : Res (Nat × String)) (id : Nat) :
    (Node.Cluster s (.ok ()) callRes decN).2.getLast? = some .close ∧
    (Node.Leader s (.ok ()) callRes decL).2.getLast? = some .close ∧
    (Node.Join s store dial (.ok ()) joinCall promoteCall).2.getLast? =
      some .close ∧
    (Leave id store dial (.ok ()) removeCall).2.getLast? = some .close := by
  rcases callRes with e1 | u1 <;> rcases joinCall with e2 | u2 <;>
    rcases promoteCall with e3 | u3 <;> rcases removeCall with e4 | u4 <;>
      rcases decN with e5 | v5 <;> rcases decL with e6 | v6 <;>
        exact ⟨rfl, rfl, rfl, rfl⟩

/-- C10: `NewNode` is atomic on error — when `bindings.NewNode` fails its
error is returned with a nil node and nothing further is done; when a dial
function option was supplied and `SetDialFunc` fails, likewise; when
`SetBindAddress` fails, likewise (with or without a dial function); and the
`SetDialFunc` step is performed only when a non-nil dial-function option
was supplied. -/
theorem C10_newNode_atomic (info : NodeInfo) (options : List NodeOption)
    (env : BindingsEnv) (e : Err) :
    (env.newNode = .error e →
      NewNode info options env = (.error e, [.bindingsNew])) ∧
    ((applyOptions options).DialFunc ≠ none → env.newNode = .ok () →
      env.setDialFunc = .error e →
      NewNode info options env = (.error e, [.bindingsNew, .setDialFunc])) ∧
    (env.newNode = .ok () → (applyOptions options).DialFunc = none →
      env.setBindAddress = .error e →
      NewNode info options env = (.error e, [.bindingsNew, .setBindAddress])) ∧
    (env.newNode = .ok () → (applyOptions options).DialFunc ≠ none →
      env.setDialFunc = .ok () → env.setBindAddress = .error e →
      NewNode info options env =
        (.error e, [.bindingsNew, .setDialFunc, .setBindAddress])) ∧
    (NewNodeStep.setDialFunc ∈ (NewNode info options env).2 →
      (applyOptions options).DialFunc ≠ none) := by
  obtain ⟨nn, sdf, sba⟩ := env
  rcases h : (applyOptions options).DialFunc with _ | d <;>
    rcases nn with e1 | u1 <;> rcases sdf with e2 | u2 <;>
      rcases sba with e3 | u3 <;>
        simp [NewNode, newNodeBind, h]

/-- C10 witness: the atomicity theorem applied at a concrete environment in
which `bindings.NewNode` itself fails. -/
theorem C10_witness :
    NewNode infoEx [] envNewFail = (.error "create boom", [.bindingsNew]) :=
  (C10_newNode_atomic infoEx [] envNewFail "create boom").1 rfl

end Dqlite
